import Mathlib

/-!
Verification of the translateplus-python client library.

The development shallowly embeds the request-dispatch core of
`translateplus/client.py` (class `TranslatePlusClient`): the retry/backoff
loop `_make_request`, the error classification into the exception taxonomy of
`translateplus/exceptions.py`, the validation gates of the endpoint methods,
the concurrent fan-out `translate_concurrent`, and the header construction.

Network interaction is made explicit: each call to the dispatcher is
parameterised by the outcome of every attempt (an HTTP response or a
transport-level exception), and the dispatcher additionally returns the list
of observable events it performed (semaphore acquire/release, network call,
sleep with its duration), so that retry counts, backoff schedules and
semaphore discipline are provable properties of the embedding.
-/

namespace TranslatePlus

/-- A parsed JSON object, modelled as an association list from string keys to
string values.  This carries exactly the structure the client inspects: the
`detail` field of error bodies (client.py line 137) and the opaque payload
returned to the caller. -/
abbrev Json := List (String × String)

/-- An HTTP response as the client observes it (a `requests.Response`):
the status code, the parsed JSON body when the content is non-empty
(`body = none` models empty `response.content`), and the `Retry-After`
header already parsed to an integer when present (client.py line 124 applies
`int` to the header value). -/
structure Response where
  status : Nat
  body : Option Json
  retryAfter : Option Nat
deriving DecidableEq, Repr

/-- The outcome of one network attempt: either an HTTP response, or a
transport-level exception (`requests.exceptions.RequestException`: connection
error, timeout, DNS failure) carrying its message. -/
inductive Outcome where
  | response (r : Response)
  | transportError (msg : String)
deriving DecidableEq, Repr

/-- The exception taxonomy of `translateplus/exceptions.py`, flattened to a
sum type.  Python subclassing (`TranslatePlusAuthenticationError` etc. extend
`TranslatePlusAPIError`) is irrelevant to the properties proved here, which
distinguish the exact class raised.  `APIError` plays the role of the spec's
GenericAPI classification; `ValidationError` carries only a message, as in
the source (`TranslatePlusValidationError` extends the base
`TranslatePlusError`, without status code or response fields). -/
inductive TPError where
  | APIError (message : String) (statusCode : Option Nat) (response : Option Json)
  | AuthenticationError (message : String) (statusCode : Option Nat) (response : Option Json)
  | RateLimitError (message : String) (statusCode : Option Nat) (response : Option Json)
  | InsufficientCreditsError (message : String) (statusCode : Option Nat) (response : Option Json)
  | ValidationError (message : String)
deriving DecidableEq, Repr

/-- Observable events of a dispatcher run: acquiring and releasing the
concurrency semaphore (`with self._semaphore:`), performing one network call
(`self.session.request(...)` or `self.session.get(...)`), and sleeping for a
number of time units (`time.sleep(...)`). -/
inductive Event where
  | acquire
  | netcall
  | sleep (duration : Nat)
  | release
deriving DecidableEq, Repr

/-- `error_data.get("detail", ...)`: the `detail` field of an error body. -/
def detailOf (j : Json) : Option String :=
  (j.find? (fun kv => kv.fst == "detail")).map Prod.snd

/-- `error_data = response.json() if response.content else {}`
(client.py line 136). -/
def errorData (r : Response) : Json := r.body.getD []

/-- `error_message = error_data.get("detail", f"API error: {status_code}")`
(client.py line 137). -/
def errorMessage (r : Response) : String :=
  (detailOf (errorData r)).getD ("API error: " ++ toString r.status)

/-- The classification of an HTTP error response, client.py lines 136-162:
401/403 raise `TranslatePlusAuthenticationError`, 402 raises
`TranslatePlusInsufficientCreditsError`, 429 raises
`TranslatePlusRateLimitError` (dead in context: status 429 is intercepted at
line 123 before this chain), everything else raises `TranslatePlusAPIError`.
Each carries the error message, the status code, and `error_data`. -/
def classifyHttpError (r : Response) : TPError :=
  let ed := errorData r
  let msg := errorMessage r
  if r.status = 401 ∨ r.status = 403 then
    .AuthenticationError msg (some r.status) (some ed)
  else if r.status = 402 then
    .InsufficientCreditsError msg (some r.status) (some ed)
  else if r.status = 429 then
    .RateLimitError msg (some r.status) (some ed)
  else
    .APIError msg (some r.status) (some ed)

/-- The retry loop of `TranslatePlusClient._make_request`, client.py lines
106-180.  `fuel` is the number of loop iterations still available
(`max_retries + 1` at entry, mirroring `for attempt in range(max_retries + 1)`),
`attempt` the current iteration index, `lastExc` the `last_exception`
variable.  `outcomes i` is the outcome the network delivers for attempt `i`.

Per attempt the `with self._semaphore:` block acquires the semaphore, issues
the request, and releases the semaphore on every exit (return, `continue`,
or exception), so every attempt contributes an `acquire`/`release` bracketed
block to the event trace.  The 429 backoff sleep (line 126) happens inside
the `with` block; the transport-error backoff sleep (line 173) happens in the
`except` handler, after the block has been exited.

On a 2xx/3xx response the source returns `response.json()`; an empty success
body (on which `response.json()` would fail to decode) is modelled as the
empty object, no property proved here depends on that case. -/
def makeRequestLoop (maxRetries : Nat) (outcomes : Nat → Outcome) :
    Nat → Nat → Option String → Except TPError Json × List Event
  | 0, _, lastExc =>
      -- line 178: only reachable if the `for` loop completes all iterations,
      -- which no branch of the loop body allows.
      (.error (.APIError
        ("Request failed after " ++ toString maxRetries ++ " retries: " ++
          lastExc.getD "None") none none), [])
  | fuel + 1, attempt, lastExc =>
      match outcomes attempt with
      | .transportError msg =>
          if attempt < maxRetries then
            let rest := makeRequestLoop maxRetries outcomes fuel (attempt + 1) (some msg)
            (rest.fst, [.acquire, .netcall, .release, .sleep (2 ^ attempt)] ++ rest.snd)
          else
            (.error (.APIError ("Request failed: " ++ msg) none none),
             [.acquire, .netcall, .release])
      | .response r =>
          if r.status = 429 then
            if attempt < maxRetries then
              let rest := makeRequestLoop maxRetries outcomes fuel (attempt + 1) lastExc
              (rest.fst,
               [.acquire, .netcall, .sleep (r.retryAfter.getD (2 ^ attempt)), .release]
                 ++ rest.snd)
            else
              (.error (.RateLimitError "Rate limit exceeded. Please try again later."
                (some 429) r.body), [.acquire, .netcall, .release])
          else if 400 ≤ r.status then
            (.error (classifyHttpError r), [.acquire, .netcall, .release])
          else
            (.ok (r.body.getD []), [.acquire, .netcall, .release])

/-- `TranslatePlusClient._make_request`: run the retry loop from attempt 0
with `max_retries + 1` iterations available and no recorded exception. -/
def _make_request (maxRetries : Nat) (outcomes : Nat → Outcome) :
    Except TPError Json × List Event :=
  makeRequestLoop maxRetries outcomes (maxRetries + 1) 0 none

/-- Number of network calls in an event trace. -/
def netcallCount (es : List Event) : Nat :=
  es.countP (fun e => match e with | .netcall => true | _ => false)

/-- The sleep durations of an event trace, in order. -/
def sleepsOf (es : List Event) : List Nat :=
  es.filterMap (fun e => match e with | .sleep d => some d | _ => none)

/-- Semaphore discipline of an event trace, tracked with the current hold
depth: a network call is only allowed while the semaphore is held, a release
must match an earlier acquire, and at the end of the trace every acquire has
been released. -/
def guardedFrom : Nat → List Event → Bool
  | depth, [] => depth == 0
  | depth, .acquire :: es => guardedFrom (depth + 1) es
  | 0, .release :: _ => false
  | depth + 1, .release :: es => guardedFrom depth es
  | 0, .netcall :: _ => false
  | depth + 1, .netcall :: es => guardedFrom (depth + 1) es
  | depth, .sleep _ :: es => guardedFrom depth es

/-- A trace is well guarded when, starting with the semaphore free, every
network call happens under the semaphore and every acquire is released. -/
def wellGuarded (es : List Event) : Bool := guardedFrom 0 es

/-- Python string `rstrip("/")`: drop all trailing slashes
(`base_url.rstrip("/")`, client.py line 53), computed on the character
list. -/
def rstripSlash (s : String) : String :=
  String.mk ((s.data.reverse.dropWhile (fun c => c == '/')).reverse)

/-- The session-level default headers installed at construction
(client.py lines 59-64): credential header, JSON content type, user agent. -/
def sessionHeadersFor (api_key : String) : List (String × String) :=
  [("X-API-KEY", api_key),
   ("Content-Type", "application/json"),
   ("User-Agent", "translateplus-python/1.0.0")]

/-- The client state built by `TranslatePlusClient.__init__`
(client.py lines 41-67).  The `requests.Session` is represented by its
default header dictionary; the semaphore by its size `max_concurrent`. -/
structure TranslatePlusClient where
  api_key : String
  base_url : String
  timeout : Nat
  max_retries : Nat
  max_concurrent : Nat
  sessionHeaders : List (String × String)
deriving DecidableEq, Repr

/-- `TranslatePlusClient.__init__` (client.py lines 41-67): an empty API key
fails with `TranslatePlusValidationError("API key is required")` (Python
`if not api_key` on a `str` is the emptiness test); otherwise the client is
built with the trailing-slash-stripped base URL and the session default
headers.  Defaults in the source: base url `https://api.translateplus.io`,
timeout 30, max_retries 3, max_concurrent 5. -/
def clientInit (api_key base_url : String) (timeout max_retries max_concurrent : Nat) :
    Except TPError TranslatePlusClient :=
  if api_key = "" then
    .error (.ValidationError "API key is required")
  else
    .ok { api_key := api_key
          base_url := rstripSlash base_url
          timeout := timeout
          max_retries := max_retries
          max_concurrent := max_concurrent
          sessionHeaders := sessionHeadersFor api_key }

/-- The per-request header dictionary chosen by `_make_request`
(client.py lines 99-104): the empty dictionary when files are attached
(the comment at line 101 intends this to remove the content type for
multipart), otherwise `{"Content-Type": "application/json"}`.  Values are
`Option String` because the requests library gives `None` the special
meaning of deleting a session header, which is the only way to remove one. -/
def perRequestHeaders (hasFiles : Bool) : List (String × Option String) :=
  if hasFiles then [] else [("Content-Type", some "application/json")]

/-- Modelled from the requests library (Session.request / merge_setting),
which is external to this repository: the headers actually sent are the
session headers updated key-by-key with the per-request headers, where a
per-request entry with value `None` deletes the session header and a session
header whose key is absent from the per-request dictionary is kept
unchanged. -/
def effectiveHeaders (session : List (String × String))
    (request : List (String × Option String)) : List (String × String) :=
  (session.filter (fun kv => request.all (fun p => p.fst != kv.fst)))
    ++ request.filterMap (fun p => p.snd.map (fun v => (p.fst, v)))

/-- Lookup of a header value in a header list. -/
def headerValue (hs : List (String × String)) (k : String) : Option String :=
  (hs.find? (fun kv => kv.fst == k)).map Prod.snd

/-- `TranslatePlusClient.translate_batch` (client.py lines 211-246): an empty
list or more than 100 texts raises `TranslatePlusValidationError` before any
dispatch (empty event trace); otherwise the request is dispatched through
`_make_request`. -/
def translate_batch (maxRetries : Nat) (outcomes : Nat → Outcome)
    (texts : List String) : Except TPError Json × List Event :=
  if texts.length = 0 then
    (.error (.ValidationError "Texts list cannot be empty"), [])
  else if texts.length > 100 then
    (.error (.ValidationError "Maximum 100 texts allowed per batch request"), [])
  else
    _make_request maxRetries outcomes

/-- `TranslatePlusClient.translate_subtitles` (client.py lines 315-349): a
format outside {srt, vtt} raises `TranslatePlusValidationError` before any
dispatch; otherwise the request is dispatched through `_make_request`. -/
def translate_subtitles (maxRetries : Nat) (outcomes : Nat → Outcome)
    (format : String) : Except TPError Json × List Event :=
  if format ≠ "srt" ∧ format ≠ "vtt" then
    (.error (.ValidationError "Format must be 'srt' or 'vtt'"), [])
  else
    _make_request maxRetries outcomes

/-- `TranslatePlusClient.download_i18n_file` (client.py lines 476-508): a
single `self.session.get(...)` issued WITHOUT the `with self._semaphore:`
block used by `_make_request`, so its trace is a bare network call.  A status
of at least 400 raises `TranslatePlusAPIError` with the parsed error body
(empty object when the content is empty); otherwise the raw byte content
(modelled as a string) is returned. -/
def download_i18n_file (resp : Response) (content : String) :
    Except TPError String × List Event :=
  if 400 ≤ resp.status then
    (.error (.APIError (errorMessage resp) (some resp.status) (some (errorData resp))),
     [.netcall])
  else
    (.ok content, [.netcall])

/-- The slot value stored by `translate_concurrent` for one item
(client.py lines 569-572): the successful `future.result()`, or the
error-marker object `{"error": str(e)}` when the item's `translate` call
raised (any `Exception` is caught there, so a per-item failure never
escapes the aggregate call). -/
def itemResult : Except String Json → Json
  | .ok r => r
  | .error e => [("error", e)]

/-- The fan-out core of `TranslatePlusClient.translate_concurrent`
(client.py lines 556-574): `results = [None] * len(texts)` followed by the
`as_completed` loop, which visits the futures in completion order `order`
and stores each item's result at its submission index
(`results[index] = ...`).  `outcomes` lists, per input position, how that
item's `translate` call ended. -/
def fillResults (outcomes : List (Except String Json)) (order : List Nat) :
    List (Option Json) :=
  order.foldl
    (fun acc i => acc.set i (some (itemResult (outcomes.getD i (.error "")))))
    (List.replicate outcomes.length none)

/-- `TranslatePlusClient.translate_concurrent`: one `executor.submit` of
`self.translate` per input text (the `future_to_index` comprehension,
client.py lines 562-565), then the completion loop.  No validation of the
input size is performed.  The returned pair also exposes the number of
submitted dispatcher calls, which is one per input text. -/
def translate_concurrent (texts : List String)
    (itemOutcome : Nat → Except String Json) (order : List Nat) :
    List (Option Json) × Nat :=
  (fillResults ((List.range texts.length).map itemOutcome) order, texts.length)

/-! ## Trace lemmas -/

theorem netcallCount_append (xs ys : List Event) :
    netcallCount (xs ++ ys) = netcallCount xs + netcallCount ys :=
  List.countP_append _ _ _

theorem sleepsOf_append (xs ys : List Event) :
    sleepsOf (xs ++ ys) = sleepsOf xs ++ sleepsOf ys :=
  List.filterMap_append _ _ _

/-- On an all-429 run, the retry loop started at attempt `a` with matching
fuel performs `fuel` network calls, sleeps the Retry-After value (or
`2 ^ attempt`) between consecutive attempts, and ends with the rate-limit
error carrying the final response body. -/
theorem makeRequestLoop_rateLimit (maxRetries : Nat) (outcomes : Nat → Outcome)
    (b : Nat → Option Json) (ra : Nat → Option Nat)
    (h : ∀ i, i ≤ maxRetries → outcomes i = .response ⟨429, b i, ra i⟩) :
    ∀ (fuel a : Nat) (lastExc : Option String),
      a + fuel = maxRetries + 1 → a ≤ maxRetries →
      (makeRequestLoop maxRetries outcomes fuel a lastExc).fst =
          .error (.RateLimitError "Rate limit exceeded. Please try again later."
            (some 429) (b maxRetries)) ∧
        netcallCount (makeRequestLoop maxRetries outcomes fuel a lastExc).snd = fuel ∧
        sleepsOf (makeRequestLoop maxRetries outcomes fuel a lastExc).snd =
          (List.range' a (fuel - 1)).map (fun i => (ra i).getD (2 ^ i)) := by
  intro fuel
  induction fuel with
  | zero => intro a lastExc h1 h2; omega
  | succ f ih =>
    intro a lastExc h1 h2
    have hoc := h a h2
    by_cases hlt : a < maxRetries
    · obtain ⟨ihf, ihn, ihs⟩ := ih (a + 1) lastExc (by omega) (by omega)
      have hblock : netcallCount
          [Event.acquire, Event.netcall,
           Event.sleep ((ra a).getD (2 ^ a)), Event.release] = 1 := rfl
      have hsleep : sleepsOf
          [Event.acquire, Event.netcall,
           Event.sleep ((ra a).getD (2 ^ a)), Event.release] =
          [(ra a).getD (2 ^ a)] := rfl
      have hr : List.range' a f = a :: List.range' (a + 1) (f - 1) := by
        obtain ⟨g, rfl⟩ : ∃ g, f = g + 1 := ⟨f - 1, by omega⟩
        simp [List.range'_succ]
      simp only [makeRequestLoop, hoc, if_pos hlt, if_true]
      refine ⟨ihf, ?_, ?_⟩
      · rw [netcallCount_append, ihn, hblock]
        omega
      · rw [sleepsOf_append, ihs, hsleep]
        simp only [Nat.add_sub_cancel, hr, List.map_cons, List.singleton_append]
    · have ha : a = maxRetries := by omega
      have hf0 : f = 0 := by omega
      subst ha
      subst hf0
      simp only [makeRequestLoop, hoc, if_neg hlt]
      exact ⟨rfl, rfl, rfl⟩

/-- C1: when every attempt of a `_make_request` run yields HTTP 429, the
client performs `max_retries + 1` network calls (up to `max_retries`
retries); between consecutive attempts it sleeps the integer Retry-After
header value when present and `2 ^ attempt` time units otherwise; and it
finally raises `TranslatePlusRateLimitError` with status code 429 and the
parsed body of the last response (no payload when that body is empty,
`response.json() if response.content else None`). -/
theorem rate_limit_retries_then_raises (maxRetries : Nat) (outcomes : Nat → Outcome)
    (b : Nat → Option Json) (ra : Nat → Option Nat)
    (h : ∀ i, i ≤ maxRetries → outcomes i = .response ⟨429, b i, ra i⟩) :
    (_make_request maxRetries outcomes).fst =
        .error (.RateLimitError "Rate limit exceeded. Please try again later."
          (some 429) (b maxRetries)) ∧
      netcallCount (_make_request maxRetries outcomes).snd = maxRetries + 1 ∧
      sleepsOf (_make_request maxRetries outcomes).snd =
        (List.range maxRetries).map (fun i => (ra i).getD (2 ^ i)) := by
  have hm := makeRequestLoop_rateLimit maxRetries outcomes b ra h
    (maxRetries + 1) 0 none (by omega) (by omega)
  simpa [_make_request, List.range_eq_range'] using hm

/-- Witness for C1: three attempts at `max_retries = 2`, all 429, the first
response carrying Retry-After 7; sleeps are 7 then `2 ^ 1 = 2`, and the
raised error carries the final parsed body. -/
theorem rate_limit_retries_then_raises_witness :
    (_make_request 2
          (fun i => .response ⟨429, some [("detail", "slow down")],
            if i = 0 then some 7 else none⟩)).fst =
        .error (.RateLimitError "Rate limit exceeded. Please try again later."
          (some 429) (some [("detail", "slow down")])) ∧
      netcallCount (_make_request 2
          (fun i => .response ⟨429, some [("detail", "slow down")],
            if i = 0 then some 7 else none⟩)).snd = 3 ∧
      sleepsOf (_make_request 2
          (fun i => .response ⟨429, some [("detail", "slow down")],
            if i = 0 then some 7 else none⟩)).snd = [7, 2] := by
  have h := rate_limit_retries_then_raises 2
    (fun i => .response ⟨429, some [("detail", "slow down")],
      if i = 0 then some 7 else none⟩)
    (fun _ => some [("detail", "slow down")])
    (fun i => if i = 0 then some 7 else none)
    (fun i _ => rfl)
  exact ⟨h.1, h.2.1, h.2.2.trans (by decide)⟩

/-- On an all-transport-failure run, the retry loop started at attempt `a`
with matching fuel performs `fuel` network calls, sleeps `2 ^ attempt`
between consecutive attempts, and ends with the generic API error wrapping
the final transport error message. -/
theorem makeRequestLoop_transport (maxRetries : Nat) (outcomes : Nat → Outcome)
    (msg : Nat → String)
    (h : ∀ i, i ≤ maxRetries → outcomes i = .transportError (msg i)) :
    ∀ (fuel a : Nat) (lastExc : Option String),
      a + fuel = maxRetries + 1 → a ≤ maxRetries →
      (makeRequestLoop maxRetries outcomes fuel a lastExc).fst =
          .error (.APIError ("Request failed: " ++ msg maxRetries) none none) ∧
        netcallCount (makeRequestLoop maxRetries outcomes fuel a lastExc).snd = fuel ∧
        sleepsOf (makeRequestLoop maxRetries outcomes fuel a lastExc).snd =
          (List.range' a (fuel - 1)).map (fun i => 2 ^ i) := by
  intro fuel
  induction fuel with
  | zero => intro a lastExc h1 h2; omega
  | succ f ih =>
    intro a lastExc h1 h2
    have hoc := h a h2
    by_cases hlt : a < maxRetries
    · obtain ⟨ihf, ihn, ihs⟩ := ih (a + 1) (some (msg a)) (by omega) (by omega)
      have hblock : netcallCount
          [Event.acquire, Event.netcall, Event.release, Event.sleep (2 ^ a)] = 1 := rfl
      have hsleep : sleepsOf
          [Event.acquire, Event.netcall, Event.release, Event.sleep (2 ^ a)] =
          [2 ^ a] := rfl
      have hr : List.range' a f = a :: List.range' (a + 1) (f - 1) := by
        obtain ⟨g, rfl⟩ : ∃ g, f = g + 1 := ⟨f - 1, by omega⟩
        simp [List.range'_succ]
      simp only [makeRequestLoop, hoc, if_pos hlt]
      refine ⟨ihf, ?_, ?_⟩
      · rw [netcallCount_append, ihn, hblock]
        omega
      · rw [sleepsOf_append, ihs, hsleep]
        simp only [Nat.add_sub_cancel, hr, List.map_cons, List.singleton_append]
    · have ha : a = maxRetries := by omega
      have hf0 : f = 0 := by omega
      subst ha
      subst hf0
      simp only [makeRequestLoop, hoc, if_neg hlt]
      exact ⟨by simp, rfl, rfl⟩

/-- C4: when every attempt of a `_make_request` run ends in a
transport-level failure, the client performs `max_retries + 1` network calls
(the retry budget of `max_retries` retries), sleeps `2 ^ attempt` time units
between consecutive attempts, and finally raises `TranslatePlusAPIError`
(the GenericAPI classification) whose message wraps the last underlying
transport error message. -/
theorem transport_failure_retries_then_raises (maxRetries : Nat)
    (outcomes : Nat → Outcome) (msg : Nat → String)
    (h : ∀ i, i ≤ maxRetries → outcomes i = .transportError (msg i)) :
    (_make_request maxRetries outcomes).fst =
        .error (.APIError ("Request failed: " ++ msg maxRetries) none none) ∧
      netcallCount (_make_request maxRetries outcomes).snd = maxRetries + 1 ∧
      sleepsOf (_make_request maxRetries outcomes).snd =
        (List.range maxRetries).map (fun i => 2 ^ i) := by
  have hm := makeRequestLoop_transport maxRetries outcomes msg h
    (maxRetries + 1) 0 none (by omega) (by omega)
  simpa [_make_request, List.range_eq_range'] using hm

/-- Witness for C4: three attempts at `max_retries = 2`, all failing with a
connection error; sleeps are `2 ^ 0 = 1` then `2 ^ 1 = 2`, and the raised
error wraps the transport message. -/
theorem transport_failure_retries_then_raises_witness :
    (_make_request 2 (fun _ => .transportError "Connection refused")).fst =
        .error (.APIError "Request failed: Connection refused" none none) ∧
      netcallCount (_make_request 2 (fun _ => .transportError "Connection refused")).snd
        = 3 ∧
      sleepsOf (_make_request 2 (fun _ => .transportError "Connection refused")).snd
        = [1, 2] := by
  have h := transport_failure_retries_then_raises 2
    (fun _ => .transportError "Connection refused")
    (fun _ => "Connection refused") (fun i _ => rfl)
  exact ⟨h.1, h.2.1, h.2.2.trans (by decide)⟩

/-- C2: a 401 or 403 response on the first attempt raises
`TranslatePlusAuthenticationError`, and a 402 response raises
`TranslatePlusInsufficientCreditsError`, immediately: exactly one network
call is performed, no retry, and the raised failure carries the response
status code and the parsed error body (`response.json() if response.content
else {}`). -/
theorem auth_and_credits_never_retried (maxRetries : Nat) (outcomes : Nat → Outcome)
    (r : Response) (h0 : outcomes 0 = .response r)
    (hs : r.status = 401 ∨ r.status = 403 ∨ r.status = 402) :
    netcallCount (_make_request maxRetries outcomes).snd = 1 ∧
      (_make_request maxRetries outcomes).fst = .error (
        if r.status = 402 then
          .InsufficientCreditsError (errorMessage r) (some r.status) (some (errorData r))
        else
          .AuthenticationError (errorMessage r) (some r.status) (some (errorData r))) := by
  obtain ⟨s, b, ra⟩ := r
  simp only [Response.status] at hs ⊢
  unfold _make_request
  rcases hs with h | h | h <;> subst h <;>
    simp [makeRequestLoop, h0, classifyHttpError, netcallCount, errorMessage, errorData]

/-- Witness for C2: a 403 with body `{"detail": "Invalid API key"}` at
`max_retries = 3` is raised as `TranslatePlusAuthenticationError` after a
single network call. -/
theorem auth_and_credits_never_retried_witness :
    netcallCount (_make_request 3
        (fun _ => .response ⟨403, some [("detail", "Invalid API key")], none⟩)).snd = 1 ∧
      (_make_request 3
          (fun _ => .response ⟨403, some [("detail", "Invalid API key")], none⟩)).fst =
        .error (.AuthenticationError "Invalid API key" (some 403)
          (some [("detail", "Invalid API key")])) := by
  have h := auth_and_credits_never_retried 3
    (fun _ => .response ⟨403, some [("detail", "Invalid API key")], none⟩)
    ⟨403, some [("detail", "Invalid API key")], none⟩ rfl (Or.inr (Or.inl rfl))
  exact ⟨h.1, h.2.trans rfl⟩

/-- C5: a response with status at least 400 other than 401, 402, 403 and 429
on the first attempt raises `TranslatePlusAPIError` (the GenericAPI
classification) immediately: exactly one network call, no retry; the failure
carries the status code and the parsed error body, which is the empty object
when the response content is empty. -/
theorem generic_api_error_not_retried (maxRetries : Nat) (outcomes : Nat → Outcome)
    (r : Response) (h0 : outcomes 0 = .response r) (h4 : 400 ≤ r.status)
    (hn1 : r.status ≠ 401) (hn2 : r.status ≠ 402) (hn3 : r.status ≠ 403)
    (hn9 : r.status ≠ 429) :
    netcallCount (_make_request maxRetries outcomes).snd = 1 ∧
      (_make_request maxRetries outcomes).fst =
        .error (.APIError (errorMessage r) (some r.status) (some (r.body.getD []))) := by
  obtain ⟨s, b, ra⟩ := r
  simp only [Response.status] at h4 hn1 hn2 hn3 hn9 ⊢
  unfold _make_request
  simp [makeRequestLoop, h0, classifyHttpError, netcallCount, errorData,
    h4, hn1, hn2, hn3, hn9]

/-- Witness for C5: a 500 with empty body at `max_retries = 3` is raised as
`TranslatePlusAPIError` with status 500 and the empty payload after a single
network call. -/
theorem generic_api_error_not_retried_witness :
    netcallCount (_make_request 3 (fun _ => .response ⟨500, none, none⟩)).snd = 1 ∧
      (_make_request 3 (fun _ => .response ⟨500, none, none⟩)).fst =
        .error (.APIError "API error: 500" (some 500) (some [])) := by
  have h := generic_api_error_not_retried 3 (fun _ => .response ⟨500, none, none⟩)
    ⟨500, none, none⟩ rfl (by decide) (by decide) (by decide) (by decide) (by decide)
  exact ⟨h.1, h.2.trans rfl⟩
/-- C6: `translate_batch` raises `TranslatePlusValidationError` before any
network call (empty event trace) when the list is empty or longer than 100,
and dispatches through `_make_request` for 1 to 100 texts;
`translate_subtitles` raises `TranslatePlusValidationError` before any
network call when the format is outside {srt, vtt}. -/
theorem batch_and_subtitle_validation (maxRetries : Nat) (outcomes : Nat → Outcome)
    (texts : List String) (format : String) :
    (texts.length = 0 →
      translate_batch maxRetries outcomes texts =
        (.error (.ValidationError "Texts list cannot be empty"), [])) ∧
    (100 < texts.length →
      translate_batch maxRetries outcomes texts =
        (.error (.ValidationError "Maximum 100 texts allowed per batch request"), [])) ∧
    (1 ≤ texts.length → texts.length ≤ 100 →
      translate_batch maxRetries outcomes texts = _make_request maxRetries outcomes) ∧
    (format ≠ "srt" → format ≠ "vtt" →
      translate_subtitles maxRetries outcomes format =
        (.error (.ValidationError "Format must be 'srt' or 'vtt'"), [])) := by
  refine ⟨?_, ?_, ?_, ?_⟩
  · intro h
    simp [translate_batch, h]
  · intro h
    have hne : texts.length ≠ 0 := by omega
    simp [translate_batch, hne, h]
  · intro h1 h2
    have hne : texts.length ≠ 0 := by omega
    have hle : ¬ (texts.length > 100) := by omega
    simp [translate_batch, hne, hle]
  · intro h1 h2
    simp [translate_subtitles, h1, h2]

/-- Witness for C6: at `max_retries = 3` with all-200 outcomes, the empty
batch and a 101-item batch fail with the two validation messages and an
empty trace, a singleton batch dispatches, and an unknown subtitle format
fails with the format validation message and an empty trace. -/
theorem batch_and_subtitle_validation_witness :
    translate_batch 3 (fun _ => .response ⟨200, some [], none⟩) [] =
        (.error (.ValidationError "Texts list cannot be empty"), []) ∧
      translate_batch 3 (fun _ => .response ⟨200, some [], none⟩)
          (List.replicate 101 "x") =
        (.error (.ValidationError "Maximum 100 texts allowed per batch request"), []) ∧
      translate_batch 3 (fun _ => .response ⟨200, some [], none⟩) ["Hello"] =
        _make_request 3 (fun _ => .response ⟨200, some [], none⟩) ∧
      translate_subtitles 3 (fun _ => .response ⟨200, some [], none⟩) "ass" =
        (.error (.ValidationError "Format must be 'srt' or 'vtt'"), []) := by
  refine ⟨(batch_and_subtitle_validation 3 _ [] "srt").1 rfl,
    (batch_and_subtitle_validation 3 _ (List.replicate 101 "x") "srt").2.1 (by simp),
    (batch_and_subtitle_validation 3 _ ["Hello"] "srt").2.2.1 (by simp) (by simp),
    (batch_and_subtitle_validation 3 _ [] "ass").2.2.2 (by decide) (by decide)⟩

/-- C9: constructing a client with a non-empty API key succeeds and the
constructed client holds that key; an empty API key fails with
`TranslatePlusValidationError("API key is required")`; hence every
constructed client holds a non-empty credential. -/
theorem client_requires_nonempty_api_key (api_key base_url : String)
    (timeout max_retries max_concurrent : Nat) :
    (api_key ≠ "" → ∃ c,
        clientInit api_key base_url timeout max_retries max_concurrent = .ok c ∧
          c.api_key = api_key) ∧
    (api_key = "" →
        clientInit api_key base_url timeout max_retries max_concurrent =
          .error (.ValidationError "API key is required")) ∧
    (∀ c, clientInit api_key base_url timeout max_retries max_concurrent = .ok c →
        c.api_key ≠ "") := by
  refine ⟨?_, ?_, ?_⟩
  · intro h
    refine ⟨{ api_key := api_key, base_url := rstripSlash base_url,
              timeout := timeout, max_retries := max_retries,
              max_concurrent := max_concurrent,
              sessionHeaders := sessionHeadersFor api_key }, ?_, rfl⟩
    simp [clientInit, h]
  · intro h
    simp [clientInit, h]
  · intro c hc
    by_cases h : api_key = ""
    · rw [clientInit, if_pos h] at hc
      exact absurd hc (by simp)
    · simp only [clientInit, if_neg h, Except.ok.injEq] at hc
      rw [← hc]
      exact h

/-- Witness for C9: the key `my-key` constructs a client carrying it, and
the empty key is rejected. -/
theorem client_requires_nonempty_api_key_witness :
    (∃ c, clientInit "my-key" "https://api.translateplus.io" 30 3 5 = .ok c ∧
        c.api_key = "my-key") ∧
      clientInit "" "https://api.translateplus.io" 30 3 5 =
        .error (.ValidationError "API key is required") :=
  ⟨(client_requires_nonempty_api_key "my-key" "https://api.translateplus.io" 30 3 5).1
      (by decide),
   (client_requires_nonempty_api_key "" "https://api.translateplus.io" 30 3 5).2.1 rfl⟩

/-- C8 (evaluating the code at the failing input): for a client built with
key `k`, the credential header is present on both request shapes, and the
content type is `application/json` on structured-body requests — but ALSO on
multipart file-upload requests: the empty per-request header dictionary
(client.py line 102) does not remove the session-level
`Content-Type: application/json` under the requests library's header
merging, in contradiction with the comment at line 101 and the spec, which
expect the content type to be omitted so the transport can set the multipart
boundary. -/
theorem multipart_content_type_not_removed :
    headerValue (effectiveHeaders (sessionHeadersFor "k") (perRequestHeaders true))
        "X-API-KEY" = some "k" ∧
      headerValue (effectiveHeaders (sessionHeadersFor "k") (perRequestHeaders false))
        "X-API-KEY" = some "k" ∧
      headerValue (effectiveHeaders (sessionHeadersFor "k") (perRequestHeaders false))
        "Content-Type" = some "application/json" ∧
      headerValue (effectiveHeaders (sessionHeadersFor "k") (perRequestHeaders true))
        "Content-Type" = some "application/json" :=
  ⟨rfl, rfl, rfl, rfl⟩

/-- One attempt block of the retry loop keeps the guard depth at zero:
acquire, network call and release (with the 429 backoff sleep inside the
`with` block). -/
theorem guardedFrom_block429 (d : Nat) (es : List Event) :
    guardedFrom 0 ([.acquire, .netcall, .sleep d, .release] ++ es) =
      guardedFrom 0 es := rfl

/-- One attempt block of the retry loop keeps the guard depth at zero:
acquire, network call, release, then the transport backoff sleep outside the
`with` block. -/
theorem guardedFrom_blockTransport (d : Nat) (es : List Event) :
    guardedFrom 0 ([.acquire, .netcall, .release, .sleep d] ++ es) =
      guardedFrom 0 es := rfl

/-- Every trace of the retry loop is well guarded: each network call happens
with the semaphore held, and each acquire is matched by a release on every
exit path. -/
theorem makeRequestLoop_wellGuarded (maxRetries : Nat) (outcomes : Nat → Outcome) :
    ∀ (fuel attempt : Nat) (lastExc : Option String),
      wellGuarded (makeRequestLoop maxRetries outcomes fuel attempt lastExc).snd = true := by
  intro fuel
  induction fuel with
  | zero => intro a lastExc; rfl
  | succ f ih =>
    intro a lastExc
    cases hoc : outcomes a with
    | transportError msg =>
      by_cases hlt : a < maxRetries
      · simp only [makeRequestLoop, hoc, if_pos hlt]
        rw [wellGuarded, guardedFrom_blockTransport]
        exact ih (a + 1) (some msg)
      · simp only [makeRequestLoop, hoc, if_neg hlt]
        rfl
    | response r =>
      by_cases h429 : r.status = 429
      · by_cases hlt : a < maxRetries
        · simp only [makeRequestLoop, hoc, if_pos h429, if_pos hlt]
          rw [wellGuarded, guardedFrom_block429]
          exact ih (a + 1) lastExc
        · simp only [makeRequestLoop, hoc, if_pos h429, if_neg hlt]
          rfl
      · by_cases h400 : 400 ≤ r.status
        · simp only [makeRequestLoop, hoc, if_neg h429, if_pos h400]
          rfl
        · simp only [makeRequestLoop, hoc, if_neg h429, if_neg h400]
          rfl

/-- C7 (amended): every network call dispatched through `_make_request`
happens with the concurrency semaphore held, acquired before the call and
released unconditionally afterward on success and on failure — the trace of
every `_make_request` run, whatever its attempts' outcomes, is well
guarded. (The claim as stated over every network call of the client is
refuted by `download_i18n_file`, see the counterexample.) -/
theorem make_request_semaphore_guarded (maxRetries : Nat) (outcomes : Nat → Outcome) :
    wellGuarded (_make_request maxRetries outcomes).snd = true :=
  makeRequestLoop_wellGuarded maxRetries outcomes (maxRetries + 1) 0 none

/-- C7 counterexample: `download_i18n_file` performs a network call
(`self.session.get`, client.py line 493) whose trace is NOT semaphore
guarded — it never acquires `self._semaphore` — refuting the claim that
every network call issued by the client acquires the concurrency-limiting
semaphore before the call. -/
theorem download_bypasses_semaphore :
    netcallCount (download_i18n_file ⟨200, none, none⟩ "file-content").snd = 1 ∧
      wellGuarded (download_i18n_file ⟨200, none, none⟩ "file-content").snd = false :=
  ⟨rfl, rfl⟩

/-! ## Concurrent fan-out lemmas -/

theorem fillFold_length (outcomes : List (Except String Json)) (order : List Nat) :
    ∀ acc : List (Option Json),
      (order.foldl
        (fun acc i => acc.set i (some (itemResult (outcomes.getD i (.error ""))))) acc).length
        = acc.length := by
  induction order with
  | nil => intro acc; rfl
  | cons i rest ih =>
    intro acc
    rw [List.foldl_cons, ih, List.length_set]

theorem fillFold_getElem_not_mem (outcomes : List (Except String Json)) (j : Nat) :
    ∀ (order : List Nat), j ∉ order → ∀ acc : List (Option Json),
      (order.foldl
        (fun acc i => acc.set i (some (itemResult (outcomes.getD i (.error ""))))) acc)[j]?
        = acc[j]? := by
  intro order
  induction order with
  | nil => intro _ acc; rfl
  | cons i rest ih =>
    intro hj acc
    have hij : i ≠ j := fun e => hj (e ▸ List.mem_cons_self i rest)
    rw [List.foldl_cons, ih (fun hm => hj (List.mem_cons_of_mem _ hm)),
      List.getElem?_set_ne hij]

theorem fillFold_getElem_mem (outcomes : List (Except String Json)) (j : Nat) :
    ∀ (order : List Nat), j ∈ order → ∀ acc : List (Option Json), j < acc.length →
      (order.foldl
        (fun acc i => acc.set i (some (itemResult (outcomes.getD i (.error ""))))) acc)[j]?
        = some (some (itemResult (outcomes.getD j (.error "")))) := by
  intro order
  induction order with
  | nil => intro h; cases h
  | cons i rest ih =>
    intro hmem acc hlen
    rw [List.foldl_cons]
    by_cases hm : j ∈ rest
    · exact ih hm _ (by rw [List.length_set]; exact hlen)
    · have hij : i = j := by
        rcases List.mem_cons.mp hmem with h | h
        · exact h.symm
        · exact absurd h hm
      subst hij
      rw [fillFold_getElem_not_mem outcomes i rest hm,
        List.getElem?_set_eq_of_lt _ hlen]

/-- The completion loop fills, at each input position, exactly that
position's own item result, whatever order the futures complete in: for any
completion order that is a permutation of the input positions, the filled
slots equal the positional map of `itemResult`. -/
theorem fillResults_eq_map (outcomes : List (Except String Json)) (order : List Nat)
    (h : order.Perm (List.range outcomes.length)) :
    fillResults outcomes order = outcomes.map (fun o => some (itemResult o)) := by
  apply List.ext_getElem?
  intro j
  by_cases hj : j < outcomes.length
  · have hmem : j ∈ order := h.mem_iff.mpr (List.mem_range.mpr hj)
    rw [fillResults, fillFold_getElem_mem outcomes j order hmem _
      (by rw [List.length_replicate]; exact hj)]
    rw [List.getD_eq_getElem outcomes _ hj]
    rw [List.getElem?_map, List.getElem?_eq_getElem hj]
    rfl
  · have hmemn : j ∉ order := fun hm => hj (List.mem_range.mp (h.mem_iff.mp hm))
    rw [fillResults, fillFold_getElem_not_mem outcomes j order hmemn]
    have h1 : (List.replicate outcomes.length (none : Option Json))[j]? = none := by
      rw [List.getElem?_eq_none_iff, List.length_replicate]
      omega
    have h2 : (outcomes.map (fun o => some (itemResult o)))[j]? = none := by
      rw [List.getElem?_eq_none_iff, List.length_map]
      omega
    rw [h1, h2]

/-- C3: `translate_concurrent` on N input texts returns exactly N results,
and — whatever order the futures complete in, any permutation of the input
positions — slot i holds exactly the outcome of input i's own translate
call: its successful result, or the error-marker object
`{"error": message}` when that item raised, without affecting sibling
slots; the aggregate call itself returns normally (it is a total function
into a result list). -/
theorem concurrent_results_positional (texts : List String)
    (itemOutcome : Nat → Except String Json) (order : List Nat)
    (h : order.Perm (List.range texts.length)) :
    (translate_concurrent texts itemOutcome order).fst.length = texts.length ∧
      (translate_concurrent texts itemOutcome order).fst =
        (List.range texts.length).map (fun i => some (itemResult (itemOutcome i))) := by
  have hperm : order.Perm
      (List.range ((List.range texts.length).map itemOutcome).length) := by
    rw [List.length_map, List.length_range]
    exact h
  have hmap := fillResults_eq_map ((List.range texts.length).map itemOutcome) order hperm
  constructor
  · show (fillResults ((List.range texts.length).map itemOutcome) order).length = _
    rw [hmap, List.length_map, List.length_map, List.length_range]
  · show fillResults ((List.range texts.length).map itemOutcome) order = _
    rw [hmap, List.map_map]
    rfl

/-- Witness for C3: three texts, the middle item failing, completion order
2, 0, 1 — a permutation of the input positions; the result list matches the
inputs positionally, with the error marker in slot 1 only. -/
theorem concurrent_results_positional_witness :
    ([2, 0, 1] : List Nat).Perm
        (List.range (["Hello", "Goodbye", "Thanks"] : List String).length) ∧
      (translate_concurrent ["Hello", "Goodbye", "Thanks"]
          (fun i => if i = 1 then .error "boom" else .ok [("translation", "ok")])
          [2, 0, 1]).fst =
        [some [("translation", "ok")], some [("error", "boom")],
          some [("translation", "ok")]] := by
  refine ⟨by decide, ?_⟩
  have h := concurrent_results_positional ["Hello", "Goodbye", "Thanks"]
    (fun i => if i = 1 then .error "boom" else .ok [("translation", "ok")])
    [2, 0, 1] (by decide)
  exact h.2.trans (by decide)

/-- C10: `translate_concurrent` performs no input-size validation: with the
empty input list it returns the empty result list having submitted zero
dispatcher calls, and with more than 100 items it still submits one
dispatcher call per item and returns one result per item — in contrast with
`translate_batch`, which rejects the same oversized input with
`TranslatePlusValidationError` before any network call. -/
theorem concurrent_no_size_validation (texts : List String)
    (itemOutcome : Nat → Except String Json) (order : List Nat)
    (maxRetries : Nat) (outcomes : Nat → Outcome) :
    translate_concurrent [] itemOutcome order = ([], 0) ∧
      (translate_concurrent texts itemOutcome order).fst.length = texts.length ∧
      (translate_concurrent texts itemOutcome order).snd = texts.length ∧
      (100 < texts.length →
        translate_batch maxRetries outcomes texts =
          (.error (.ValidationError "Maximum 100 texts allowed per batch request"), [])) := by
  refine ⟨?_, ?_, rfl, ?_⟩
  · have hlen : (translate_concurrent [] itemOutcome order).fst.length = 0 := by
      show (fillResults ((List.range (([] : List String)).length).map itemOutcome)
        order).length = 0
      rw [fillResults, fillFold_length, List.length_replicate]
      rfl
    have hnil : (translate_concurrent [] itemOutcome order).fst = [] :=
      List.length_eq_zero.mp hlen
    have h2 : translate_concurrent [] itemOutcome order =
        ((translate_concurrent [] itemOutcome order).fst, 0) := rfl
    rw [h2, hnil]
  · show (fillResults ((List.range texts.length).map itemOutcome) order).length = _
    rw [fillResults, fillFold_length, List.length_replicate, List.length_map,
      List.length_range]
  · intro h
    have hne : texts.length ≠ 0 := by omega
    simp [translate_batch, hne, h]

/-- Witness for C10: the empty input yields the empty result list with zero
submissions; 101 inputs yield 101 submissions and 101 results, while
`translate_batch` rejects the same 101 inputs with the size validation
error before any network call. -/
theorem concurrent_no_size_validation_witness :
    translate_concurrent [] (fun _ => Except.ok []) [] = ([], 0) ∧
      (translate_concurrent (List.replicate 101 "x") (fun _ => Except.ok [])
          (List.range 101)).fst.length = 101 ∧
      (translate_concurrent (List.replicate 101 "x") (fun _ => Except.ok [])
          (List.range 101)).snd = 101 ∧
      translate_batch 3 (fun _ => .response ⟨200, some [], none⟩)
          (List.replicate 101 "x") =
        (.error (.ValidationError "Maximum 100 texts allowed per batch request"), []) := by
  have h := concurrent_no_size_validation (List.replicate 101 "x")
    (fun _ => Except.ok []) (List.range 101) 3 (fun _ => .response ⟨200, some [], none⟩)
  exact ⟨h.1, by simpa using h.2.1, by simpa using h.2.2.1, h.2.2.2 (by simp)⟩

end TranslatePlus
